import Mathlib

/-!
Shallow embedding of the pasimple library (a Python wrapper around the
PulseAudio "simple" blocking API) together with proofs of its
specification claims.

Modelling conventions:
* The native library `libpulse-simple` is an external capability; it is
  embedded as a record of oracle functions (`NativeLib`) giving, for each
  boundary call, the status/error-code/data the native layer would return.
* Python exceptions become `Except PaErr`; each `PaErr` constructor
  corresponds to one `raise PaSimpleError(...)` site of the source, and
  `PaErr.message` reproduces the source message text.
* Every stream operation returns the triple
  (result, post-state, list of native boundary calls issued), so that
  claims about "no native call is issued" are directly expressible.
* Machine integers are modelled as `Int`/`Nat` with explicit reduction
  modulo 2^32 where the source stores values in `ctypes.c_uint32`.
-/

namespace PaSimpleLib

/-- Direction constant for playback streams (src/pasimple/__init__.py line 2). -/
def PA_STREAM_PLAYBACK : Nat := 1

/-- Direction constant for record streams (src/pasimple/__init__.py line 3). -/
def PA_STREAM_RECORD : Nat := 2

/-- Sample format constants (src/pasimple/__init__.py lines 7-19). -/
def PA_SAMPLE_U8 : Nat := 0

def PA_SAMPLE_ALAW : Nat := 1

def PA_SAMPLE_ULAW : Nat := 2

def PA_SAMPLE_S16LE : Nat := 3

def PA_SAMPLE_S16BE : Nat := 4

def PA_SAMPLE_FLOAT32LE : Nat := 5

def PA_SAMPLE_FLOAT32BE : Nat := 6

def PA_SAMPLE_S32LE : Nat := 7

def PA_SAMPLE_S32BE : Nat := 8

def PA_SAMPLE_S24LE : Nat := 9

def PA_SAMPLE_S24BE : Nat := 10

def PA_SAMPLE_S24_32LE : Nat := 11

def PA_SAMPLE_S24_32BE : Nat := 12

/-- The dict LOOKUP_FORMAT_BY_WIDTH (src/pasimple/__init__.py lines 27-32).
A Python dict lookup is embedded as an Option-valued function: a key that is
absent yields `none` (the source raises KeyError there). The width is taken
as `Int` so that negative widths are covered. -/
def LOOKUP_FORMAT_BY_WIDTH (sample_width : Int) : Option Nat :=
  if sample_width = 1 then some PA_SAMPLE_U8
  else if sample_width = 2 then some PA_SAMPLE_S16LE
  else if sample_width = 3 then some PA_SAMPLE_S24LE
  else if sample_width = 4 then some PA_SAMPLE_S32LE
  else none

/-- The dict LOOKUP_WIDTH_BY_FORMAT (src/pasimple/__init__.py lines 35-49). -/
def LOOKUP_WIDTH_BY_FORMAT (audio_format : Nat) : Option Nat :=
  if audio_format = PA_SAMPLE_U8 then some 1
  else if audio_format = PA_SAMPLE_ALAW then some 1
  else if audio_format = PA_SAMPLE_ULAW then some 1
  else if audio_format = PA_SAMPLE_S16LE then some 2
  else if audio_format = PA_SAMPLE_S16BE then some 2
  else if audio_format = PA_SAMPLE_FLOAT32LE then some 4
  else if audio_format = PA_SAMPLE_FLOAT32BE then some 4
  else if audio_format = PA_SAMPLE_S32LE then some 4
  else if audio_format = PA_SAMPLE_S32BE then some 4
  else if audio_format = PA_SAMPLE_S24LE then some 3
  else if audio_format = PA_SAMPLE_S24BE then some 3
  else if audio_format = PA_SAMPLE_S24_32LE then some 4
  else if audio_format = PA_SAMPLE_S24_32BE then some 4
  else none

/-- width2format (src/pasimple/__init__.py lines 52-55): dict lookup,
KeyError modelled as `none`. -/
def width2format (sample_width : Int) : Option Nat :=
  LOOKUP_FORMAT_BY_WIDTH sample_width

/-- format2width (src/pasimple/__init__.py lines 57-60): dict lookup,
KeyError modelled as `none`. -/
def format2width (audio_format : Nat) : Option Nat :=
  LOOKUP_WIDTH_BY_FORMAT audio_format

/-- Errors raised as `PaSimpleError` by the source, one constructor per
raise site; `message` below reproduces the message text. -/
inductive PaErr where
  | loadFailed (msg : String)
  | openFailed (code : Int)
  | closedStream
  | notRecording
  | notPlayback
  | nativeRead (code : Int)
  | nativeWrite (code : Int)
  | nativeDrain (code : Int)
  | nativeFlush (code : Int)
  | nativeLatency (code : Int)
  deriving DecidableEq

/-- Message text of each raise site in the source. -/
def PaErr.message : PaErr → String
  | .loadFailed msg => msg
  | .openFailed code => "Error while creating stream: " ++ toString code
  | .closedStream => "Cannot perform operation on closed stream"
  | .notRecording => "Stream was not initialized for recording"
  | .notPlayback => "Stream was not initialized for playback"
  | .nativeRead code => "Could not record audio, error code: " ++ toString code
  | .nativeWrite code => "Could not play audio, error code: " ++ toString code
  | .nativeDrain code => "Could not drain, error code: " ++ toString code
  | .nativeFlush code => "Could not flush, error code: " ++ toString code
  | .nativeLatency code => "Could not get latency, error code: " ++ toString code

/-- Misuse errors are the precondition failures detected before any native
boundary call, as opposed to errors reported by the native layer. -/
def PaErr.isMisuse : PaErr → Bool
  | .closedStream => true
  | .notRecording => true
  | .notPlayback => true
  | _ => false

/-- Native boundary calls a stream operation can issue. -/
inductive NativeCall where
  | pa_simple_new
  | pa_simple_free
  | pa_simple_read (num_bytes : Nat)
  | pa_simple_write (num_bytes : Nat)
  | pa_simple_drain
  | pa_simple_flush
  | pa_simple_get_latency
  deriving DecidableEq

/-- Oracle for the native library: for each boundary call, the values the
native layer returns (status result, error out-parameter, and for read the
bytes it writes into the caller buffer; for latency the raw return value). -/
structure NativeLib where
  readResult : Nat → Int × Int × List Nat
  writeResult : List Nat → Int × Int
  drainResult : Int × Int
  flushResult : Int × Int
  latencyResult : Nat × Int

/-- Mutable state of a PaSimple object: the `_stream_alive` flag and the
four configuration attributes saved by `__init__`
(src/pasimple/pa_simple.py lines 65-69 and 86). -/
structure StreamState where
  stream_alive : Bool
  saved_direction : Nat
  saved_format : Nat
  saved_channels : Nat
  saved_rate : Nat
  deriving DecidableEq

/-- Value stored in a `ctypes.c_uint32` field: the integer reduced modulo
2^32 (so -1 becomes the all-bits-set sentinel 4294967295). -/
def c_uint32 (v : Int) : Nat := (v % (2 ^ 32 : Int)).toNat

/-- The pa_buffer_attr struct (src/pasimple/pa_simple.py lines 30-39):
five c_uint32 fields. -/
structure pa_buffer_attr where
  maxlength : Nat
  tlength : Nat
  prebuf : Nat
  minreq : Nat
  fragsize : Nat
  deriving DecidableEq

/-- Construction of a pa_buffer_attr from the Python integers passed by
`PaSimple.__init__` (src/pasimple/pa_simple.py line 77): each value is
stored into a c_uint32 field. -/
def mk_pa_buffer_attr (maxlength tlength prebuf minreq fragsize : Int) :
    pa_buffer_attr :=
  ⟨c_uint32 maxlength, c_uint32 tlength, c_uint32 prebuf,
   c_uint32 minreq, c_uint32 fragsize⟩

/-- Python comparison `c_int_object != int_literal` (source line 210,
`if error != 0:` where `error = ctypes.c_int(0)`): ctypes simple types
define no `__eq__`, so the comparison falls back to object identity and a
`c_int` instance is never the same object as the literal, hence the
comparison is True for every stored value. -/
def c_int_ne_literal (_stored : Int) (_literal : Int) : Bool := true

/-- PaSimple.__init__ (src/pasimple/pa_simple.py lines 43-90).
`new_result` is what the native pa_simple_new returns (None on failure),
`err_out` its error out-parameter. Returns the object state, the outcome
(the raised error, if any), and the pa_buffer_attr passed to the native
open call. `_stream_alive` starts False and becomes True only after a
successful open. -/
def init (new_result : Option Nat) (err_out : Int)
    (direction format channels rate : Nat)
    (maxlength tlength prebuf minreq fragsize : Int) :
    StreamState × Except PaErr Unit × pa_buffer_attr :=
  let buffer_attr := mk_pa_buffer_attr maxlength tlength prebuf minreq fragsize
  let s0 : StreamState := ⟨false, direction, format, channels, rate⟩
  match new_result with
  | none => (s0, .error (.openFailed err_out), buffer_attr)
  | some _ => ({ s0 with stream_alive := true }, .ok (), buffer_attr)

/-- PaSimple.close (src/pasimple/pa_simple.py lines 93-98): frees the
native stream only when `_stream_alive` holds, then clears the flag. -/
def close (s : StreamState) : StreamState × List NativeCall :=
  if s.stream_alive then
    ({ s with stream_alive := false }, [.pa_simple_free])
  else
    (s, [])

/-- PaSimple.direction accessor (src/pasimple/pa_simple.py lines 113-116). -/
def direction (s : StreamState) : Nat := s.saved_direction

/-- PaSimple.format accessor (src/pasimple/pa_simple.py lines 119-122). -/
def format (s : StreamState) : Nat := s.saved_format

/-- PaSimple.channels accessor (src/pasimple/pa_simple.py lines 125-128). -/
def channels (s : StreamState) : Nat := s.saved_channels

/-- PaSimple.rate accessor (src/pasimple/pa_simple.py lines 131-134). -/
def rate (s : StreamState) : Nat := s.saved_rate

/-- PaSimple.read (src/pasimple/pa_simple.py lines 137-155). The Python
`bytearray(num_bytes)` is a zero-filled buffer of fixed length `num_bytes`;
the native call writes its bytes into it in place, so the buffer after the
call holds the bytes provided by the native layer, truncated or
zero-padded to exactly `num_bytes`. -/
def read (lib : NativeLib) (s : StreamState) (num_bytes : Nat) :
    Except PaErr (List Nat) × StreamState × List NativeCall :=
  if s.stream_alive = false then
    (.error .closedStream, s, [])
  else if s.saved_direction ≠ PA_STREAM_RECORD then
    (.error .notRecording, s, [])
  else
    let r := lib.readResult num_bytes
    let ok := r.1
    let err := r.2.1
    let written := r.2.2
    let rec_buffer :=
      written.take num_bytes ++
        List.replicate (num_bytes - (written.take num_bytes).length) 0
    if ok ≠ 0 then
      (.error (.nativeRead err), s, [.pa_simple_read num_bytes])
    else
      (.ok rec_buffer, s, [.pa_simple_read num_bytes])

/-- PaSimple.write (src/pasimple/pa_simple.py lines 158-173). -/
def write (lib : NativeLib) (s : StreamState) (data : List Nat) :
    Except PaErr Unit × StreamState × List NativeCall :=
  if s.stream_alive = false then
    (.error .closedStream, s, [])
  else if s.saved_direction ≠ PA_STREAM_PLAYBACK then
    (.error .notPlayback, s, [])
  else
    let r := lib.writeResult data
    if r.1 ≠ 0 then
      (.error (.nativeWrite r.2), s, [.pa_simple_write data.length])
    else
      (.ok (), s, [.pa_simple_write data.length])

/-- PaSimple.drain (src/pasimple/pa_simple.py lines 176-187). -/
def drain (lib : NativeLib) (s : StreamState) :
    Except PaErr Unit × StreamState × List NativeCall :=
  if s.stream_alive = false then
    (.error .closedStream, s, [])
  else if s.saved_direction ≠ PA_STREAM_PLAYBACK then
    (.error .notPlayback, s, [])
  else
    let r := lib.drainResult
    if r.1 ≠ 0 then
      (.error (.nativeDrain r.2), s, [.pa_simple_drain])
    else
      (.ok (), s, [.pa_simple_drain])

/-- PaSimple.flush (src/pasimple/pa_simple.py lines 190-199). -/
def flush (lib : NativeLib) (s : StreamState) :
    Except PaErr Unit × StreamState × List NativeCall :=
  if s.stream_alive = false then
    (.error .closedStream, s, [])
  else
    let r := lib.flushResult
    if r.1 ≠ 0 then
      (.error (.nativeFlush r.2), s, [.pa_simple_flush])
    else
      (.ok (), s, [.pa_simple_flush])

/-- PaSimple.get_latency (src/pasimple/pa_simple.py lines 202-212). The
guard on line 210 is `if error != 0:` where `error` is the ctypes c_int
object itself, not `error.value`; that Python comparison is embedded
faithfully as `c_int_ne_literal`, which is True for every stored value. -/
def get_latency (lib : NativeLib) (s : StreamState) :
    Except PaErr Nat × StreamState × List NativeCall :=
  if s.stream_alive = false then
    (.error .closedStream, s, [])
  else
    let r := lib.latencyResult
    if c_int_ne_literal r.2 0 then
      (.error (.nativeLatency r.2), s, [.pa_simple_get_latency])
    else
      (.ok r.1, s, [.pa_simple_get_latency])

/-- Lazy memoized loading of the native library,
get_libpulse_simple (src/pasimple/pa_simple.py lines 7-17).
`cell` is the module-global `_libpulse_simple`; `load_attempt` is the
outcome `ctypes.CDLL` would produce on this call (the loaded library, or
the formatted OSError text). On failure the exception is raised before the
global is assigned, so the cell stays `none`. Returns the new cell value
and the call outcome. -/
def get_libpulse_simple (cell : Option NativeLib)
    (load_attempt : Except String NativeLib) :
    Option NativeLib × Except PaErr NativeLib :=
  match cell with
  | some lib => (some lib, .ok lib)
  | none =>
    match load_attempt with
    | .ok lib => (some lib, .ok lib)
    | .error msg => (none, .error (.loadFailed msg))

/-- Operations a caller can invoke on an already-constructed stream. -/
inductive Op where
  | close
  | read (num_bytes : Nat)
  | write (data : List Nat)
  | drain
  | flush
  | get_latency
  deriving DecidableEq

/-- Decidable equality for Except, needed to evaluate operation results
on concrete inputs. -/
instance {e a : Type} [DecidableEq e] [DecidableEq a] : DecidableEq (Except e a) :=
  fun x y =>
  match x, y with
  | .ok u, .ok v =>
    if h : u = v then .isTrue (by rw [h])
    else .isFalse (by intro hc; cases hc; exact h rfl)
  | .error u, .error v =>
    if h : u = v then .isTrue (by rw [h])
    else .isFalse (by intro hc; cases hc; exact h rfl)
  | .ok _, .error _ => .isFalse (by intro hc; cases hc)
  | .error _, .ok _ => .isFalse (by intro hc; cases hc)

/-- Result of one operation in a trace (the value a successful call
returns, or the raised error). -/
inductive OpResult where
  | unitRes (r : Except PaErr Unit)
  | bytesRes (r : Except PaErr (List Nat))
  | natRes (r : Except PaErr Nat)
  deriving DecidableEq

/-- Whether a call outcome is a raised misuse error. -/
def exceptMisuse {α : Type} : Except PaErr α → Bool
  | .error e => e.isMisuse
  | .ok _ => false

/-- Whether an operation result is a raised misuse error. -/
def OpResult.isMisuseError : OpResult → Bool
  | .unitRes r => exceptMisuse r
  | .bytesRes r => exceptMisuse r
  | .natRes r => exceptMisuse r

/-- One step of the stream: dispatch an operation to the corresponding
method of the source. -/
def step (lib : NativeLib) (s : StreamState) : Op → OpResult × StreamState × List NativeCall
  | .close =>
    let r := close s
    (.unitRes (.ok ()), r.1, r.2)
  | .read n =>
    let r := read lib s n
    (.bytesRes r.1, r.2.1, r.2.2)
  | .write data =>
    let r := write lib s data
    (.unitRes r.1, r.2.1, r.2.2)
  | .drain =>
    let r := drain lib s
    (.unitRes r.1, r.2.1, r.2.2)
  | .flush =>
    let r := flush lib s
    (.unitRes r.1, r.2.1, r.2.2)
  | .get_latency =>
    let r := get_latency lib s
    (.natRes r.1, r.2.1, r.2.2)

/-- Run a sequence of operations, returning the final state and all native
boundary calls issued along the way. -/
def runTrace (lib : NativeLib) (s : StreamState) : List Op → StreamState × List NativeCall
  | [] => (s, [])
  | op :: ops =>
    let r := step lib s op
    let rest := runTrace lib r.2.1 ops
    (rest.1, r.2.2 ++ rest.2)

/-- Number of native pa_simple_free calls in a list of boundary calls. -/
def freeCount (calls : List NativeCall) : Nat :=
  calls.countP (fun c => c = .pa_simple_free)

/-- Concrete native-library oracle used to instantiate theorems with
hypotheses: every call succeeds, a read fills the buffer with the byte 7,
the latency query reports 123 with error code 0. -/
def testLib : NativeLib :=
  { readResult := fun n => (0, 0, List.replicate n 7)
  , writeResult := fun _ => (0, 0)
  , drainResult := (0, 0)
  , flushResult := (0, 0)
  , latencyResult := (123, 0) }

/-- Post-state of read is always the input state. -/
theorem read_state (lib : NativeLib) (s : StreamState) (n : Nat) :
    (read lib s n).2.1 = s := by
  unfold read
  split
  · rfl
  · split
    · rfl
    · dsimp only
      split
      · rfl
      · rfl

/-- Native calls issued by read: none or a single pa_simple_read. -/
theorem read_calls (lib : NativeLib) (s : StreamState) (n : Nat) :
    (read lib s n).2.2 = [] ∨ (read lib s n).2.2 = [.pa_simple_read n] := by
  unfold read
  split
  · exact .inl rfl
  · split
    · exact .inl rfl
    · dsimp only
      split
      · exact .inr rfl
      · exact .inr rfl

/-- Post-state of write is always the input state. -/
theorem write_state (lib : NativeLib) (s : StreamState) (data : List Nat) :
    (write lib s data).2.1 = s := by
  unfold write
  split
  · rfl
  · split
    · rfl
    · dsimp only
      split
      · rfl
      · rfl

/-- Native calls issued by write: none or a single pa_simple_write. -/
theorem write_calls (lib : NativeLib) (s : StreamState) (data : List Nat) :
    (write lib s data).2.2 = [] ∨
      (write lib s data).2.2 = [.pa_simple_write data.length] := by
  unfold write
  split
  · exact .inl rfl
  · split
    · exact .inl rfl
    · dsimp only
      split
      · exact .inr rfl
      · exact .inr rfl

/-- Post-state of drain is always the input state. -/
theorem drain_state (lib : NativeLib) (s : StreamState) :
    (drain lib s).2.1 = s := by
  unfold drain
  split
  · rfl
  · split
    · rfl
    · dsimp only
      split
      · rfl
      · rfl

/-- Native calls issued by drain: none or a single pa_simple_drain. -/
theorem drain_calls (lib : NativeLib) (s : StreamState) :
    (drain lib s).2.2 = [] ∨ (drain lib s).2.2 = [.pa_simple_drain] := by
  unfold drain
  split
  · exact .inl rfl
  · split
    · exact .inl rfl
    · dsimp only
      split
      · exact .inr rfl
      · exact .inr rfl

/-- Post-state of flush is always the input state. -/
theorem flush_state (lib : NativeLib) (s : StreamState) :
    (flush lib s).2.1 = s := by
  unfold flush
  split
  · rfl
  · dsimp only
    split
    · rfl
    · rfl

/-- Native calls issued by flush: none or a single pa_simple_flush. -/
theorem flush_calls (lib : NativeLib) (s : StreamState) :
    (flush lib s).2.2 = [] ∨ (flush lib s).2.2 = [.pa_simple_flush] := by
  unfold flush
  split
  · exact .inl rfl
  · dsimp only
    split
    · exact .inr rfl
    · exact .inr rfl

/-- Post-state of get_latency is always the input state. -/
theorem get_latency_state (lib : NativeLib) (s : StreamState) :
    (get_latency lib s).2.1 = s := by
  unfold get_latency
  split
  · rfl
  · dsimp only
    split
    · rfl
    · rfl

/-- Native calls issued by get_latency: none or a single
pa_simple_get_latency. -/
theorem get_latency_calls (lib : NativeLib) (s : StreamState) :
    (get_latency lib s).2.2 = [] ∨
      (get_latency lib s).2.2 = [.pa_simple_get_latency] := by
  unfold get_latency
  split
  · exact .inl rfl
  · dsimp only
    split
    · exact .inr rfl
    · exact .inr rfl

/-- When read fails with a misuse error it has issued no native call. -/
theorem read_misuse_calls (lib : NativeLib) (s : StreamState) (n : Nat) :
    exceptMisuse (read lib s n).1 = true → (read lib s n).2.2 = [] := by
  unfold read
  split
  · intro _; rfl
  · split
    · intro _; rfl
    · dsimp only
      split
      · intro h; simp [exceptMisuse, PaErr.isMisuse] at h
      · intro h; simp [exceptMisuse] at h

/-- When write fails with a misuse error it has issued no native call. -/
theorem write_misuse_calls (lib : NativeLib) (s : StreamState) (data : List Nat) :
    exceptMisuse (write lib s data).1 = true → (write lib s data).2.2 = [] := by
  unfold write
  split
  · intro _; rfl
  · split
    · intro _; rfl
    · dsimp only
      split
      · intro h; simp [exceptMisuse, PaErr.isMisuse] at h
      · intro h; simp [exceptMisuse] at h

/-- When drain fails with a misuse error it has issued no native call. -/
theorem drain_misuse_calls (lib : NativeLib) (s : StreamState) :
    exceptMisuse (drain lib s).1 = true → (drain lib s).2.2 = [] := by
  unfold drain
  split
  · intro _; rfl
  · split
    · intro _; rfl
    · dsimp only
      split
      · intro h; simp [exceptMisuse, PaErr.isMisuse] at h
      · intro h; simp [exceptMisuse] at h

/-- When flush fails with a misuse error it has issued no native call. -/
theorem flush_misuse_calls (lib : NativeLib) (s : StreamState) :
    exceptMisuse (flush lib s).1 = true → (flush lib s).2.2 = [] := by
  unfold flush
  split
  · intro _; rfl
  · dsimp only
    split
    · intro h; simp [exceptMisuse, PaErr.isMisuse] at h
    · intro h; simp [exceptMisuse] at h

/-- When get_latency fails with a misuse error it has issued no native
call. -/
theorem get_latency_misuse_calls (lib : NativeLib) (s : StreamState) :
    exceptMisuse (get_latency lib s).1 = true → (get_latency lib s).2.2 = [] := by
  unfold get_latency
  split
  · intro _; rfl
  · dsimp only
    split
    · intro h; simp [exceptMisuse, PaErr.isMisuse] at h
    · intro h; simp [exceptMisuse] at h

/-- Closing preserves the four saved configuration attributes. -/
theorem close_config (s : StreamState) :
    (close s).1.saved_direction = s.saved_direction ∧
    (close s).1.saved_format = s.saved_format ∧
    (close s).1.saved_channels = s.saved_channels ∧
    (close s).1.saved_rate = s.saved_rate := by
  by_cases hs : s.stream_alive <;> simp [close, hs]

/-- A step never emits pa_simple_free unless the operation is close, and
close emits it exactly when the stream is alive. -/
theorem step_free_calls (lib : NativeLib) (s : StreamState) (op : Op) :
    freeCount (step lib s op).2.2 =
      (if op = .close ∧ s.stream_alive then 1 else 0) := by
  cases op with
  | close =>
    by_cases hs : s.stream_alive <;> simp [step, close, hs, freeCount]
  | read n =>
    rcases read_calls lib s n with h | h <;> simp [step, h, freeCount]
  | write data =>
    rcases write_calls lib s data with h | h <;> simp [step, h, freeCount]
  | drain =>
    rcases drain_calls lib s with h | h <;> simp [step, h, freeCount]
  | flush =>
    rcases flush_calls lib s with h | h <;> simp [step, h, freeCount]
  | get_latency =>
    rcases get_latency_calls lib s with h | h <;> simp [step, h, freeCount]

/-- The state after a step: close clears the alive flag, every other
operation returns the state unchanged. -/
theorem step_state (lib : NativeLib) (s : StreamState) (op : Op) :
    (step lib s op).2.1 = (if op = .close then (close s).1 else s) := by
  cases op with
  | close => simp [step]
  | read n => simp [step, read_state]
  | write data => simp [step, write_state]
  | drain => simp [step, drain_state]
  | flush => simp [step, flush_state]
  | get_latency => simp [step, get_latency_state]

/-- The alive flag after a step: close turns it off, everything else
preserves it. -/
theorem step_alive (lib : NativeLib) (s : StreamState) (op : Op) :
    (step lib s op).2.1.stream_alive =
      (if op = .close then false else s.stream_alive) := by
  rw [step_state]
  by_cases hop : op = Op.close <;>
    by_cases hs : s.stream_alive <;>
      simp [hop, hs, close]

/-- Total pa_simple_free count of a trace: exactly one when the stream is
alive at the start and the trace closes it, zero otherwise. -/
theorem runTrace_freeCount (lib : NativeLib) (ops : List Op) (s : StreamState) :
    freeCount (runTrace lib s ops).2 =
      (if s.stream_alive ∧ Op.close ∈ ops then 1 else 0) := by
  induction ops generalizing s with
  | nil => simp [runTrace, freeCount]
  | cons op ops ih =>
    have hsplit :
        freeCount ((step lib s op).2.2 ++ (runTrace lib (step lib s op).2.1 ops).2)
          = freeCount (step lib s op).2.2
              + freeCount (runTrace lib (step lib s op).2.1 ops).2 := by
      simp [freeCount]
    simp only [runTrace, hsplit, ih, step_free_calls, step_alive]
    by_cases hop : op = Op.close <;>
      by_cases hs : s.stream_alive <;>
        by_cases hmem : Op.close ∈ ops <;>
          simp [hop, hs, hmem, eq_comm]

/-- Every step leaves the four saved configuration attributes unchanged. -/
theorem step_config (lib : NativeLib) (s : StreamState) (op : Op) :
    (step lib s op).2.1.saved_direction = s.saved_direction ∧
    (step lib s op).2.1.saved_format = s.saved_format ∧
    (step lib s op).2.1.saved_channels = s.saved_channels ∧
    (step lib s op).2.1.saved_rate = s.saved_rate := by
  rw [step_state]
  by_cases hop : op = Op.close <;>
    by_cases hs : s.stream_alive <;>
      simp [hop, hs, close]

/-- A whole trace leaves the four saved configuration attributes
unchanged. -/
theorem runTrace_config (lib : NativeLib) (ops : List Op) (s : StreamState) :
    (runTrace lib s ops).1.saved_direction = s.saved_direction ∧
    (runTrace lib s ops).1.saved_format = s.saved_format ∧
    (runTrace lib s ops).1.saved_channels = s.saved_channels ∧
    (runTrace lib s ops).1.saved_rate = s.saved_rate := by
  induction ops generalizing s with
  | nil => simp [runTrace]
  | cons op ops ih =>
    have hc := step_config lib s op
    have hi := ih (step lib s op).2.1
    simp only [runTrace]
    exact ⟨hi.1.trans hc.1, (hi.2.1).trans hc.2.1,
           (hi.2.2.1).trans hc.2.2.1, (hi.2.2.2).trans hc.2.2.2⟩

/-- C6: format2width is total over all thirteen defined sample formats,
width2format maps 1, 2, 3, 4 to PA_SAMPLE_U8, PA_SAMPLE_S16LE,
PA_SAMPLE_S24LE, PA_SAMPLE_S32LE respectively, and for every width w in
the set 1..4, format2width (width2format w) = w. -/
theorem C6_format_catalog_roundtrip :
    (∀ f : Nat, f < 13 → (format2width f).isSome = true) ∧
    width2format 1 = some PA_SAMPLE_U8 ∧
    width2format 2 = some PA_SAMPLE_S16LE ∧
    width2format 3 = some PA_SAMPLE_S24LE ∧
    width2format 4 = some PA_SAMPLE_S32LE ∧
    (∀ w : Int, 1 ≤ w → w ≤ 4 →
      (width2format w).bind format2width = some w.toNat) := by
  refine ⟨by decide, by decide, by decide, by decide, by decide, ?_⟩
  intro w h1 h4
  interval_cases w <;> decide

/-- Witness for C6 at concrete inputs: format 3 is defined, and the
roundtrip holds at width 2. -/
theorem C6_format_catalog_roundtrip_witness :
    ((3 : Nat) < 13 ∧ (format2width 3).isSome = true) ∧
    ((1 : Int) ≤ 2 ∧ (2 : Int) ≤ 4 ∧
      (width2format 2).bind format2width = some 2) :=
  ⟨⟨by decide, C6_format_catalog_roundtrip.1 3 (by decide)⟩,
   by decide, by decide,
   C6_format_catalog_roundtrip.2.2.2.2.2 2 (by decide) (by decide)⟩

/-- C7: for every width outside the set 1..4, width2format yields no
format (the dict lookup fails). -/
theorem C7_width2format_unsupported (w : Int)
    (h1 : w ≠ 1) (h2 : w ≠ 2) (h3 : w ≠ 3) (h4 : w ≠ 4) :
    width2format w = none := by
  simp [width2format, LOOKUP_FORMAT_BY_WIDTH, h1, h2, h3, h4]

/-- Witness for C7 at width 5. -/
theorem C7_width2format_unsupported_witness :
    ((5 : Int) ≠ 1 ∧ (5 : Int) ≠ 2 ∧ (5 : Int) ≠ 3 ∧ (5 : Int) ≠ 4) ∧
      width2format 5 = none :=
  ⟨⟨by decide, by decide, by decide, by decide⟩,
   C7_width2format_unsupported 5 (by decide) (by decide) (by decide) (by decide)⟩

/-- C8: loading the native capability is lazy and memoized and a failed
load is not cached: a failing first attempt raises while the global cell
stays unset, a later attempt can succeed and then sets the cell, and once
the cell is set every call returns the memoized capability regardless of
what a fresh load attempt would produce. -/
theorem C8_lazy_memoized_load :
    (∀ msg : String,
      get_libpulse_simple none (.error msg) = (none, .error (.loadFailed msg))) ∧
    (∀ lib : NativeLib,
      get_libpulse_simple none (.ok lib) = (some lib, .ok lib)) ∧
    (∀ (lib : NativeLib) (att : Except String NativeLib),
      get_libpulse_simple (some lib) att = (some lib, .ok lib)) :=
  ⟨fun _ => rfl, fun _ => rfl, fun _ _ => rfl⟩

/-- C9: with the default buffer parameters (all -1), every c_uint32 field
of the pa_buffer_attr record passed to the native open call equals the
all-bits-set sentinel 2^32 - 1, and a non-negative explicit value is
passed through unchanged modulo 2^32. -/
theorem C9_buffer_attr_defaults :
    (∀ (new_result : Option Nat) (err_out : Int) (d f ch r : Nat),
      (init new_result err_out d f ch r (-1) (-1) (-1) (-1) (-1)).2.2 =
        ⟨2 ^ 32 - 1, 2 ^ 32 - 1, 2 ^ 32 - 1, 2 ^ 32 - 1, 2 ^ 32 - 1⟩) ∧
    (∀ ml tl pb mr fs : Int,
      mk_pa_buffer_attr ml tl pb mr fs =
        ⟨c_uint32 ml, c_uint32 tl, c_uint32 pb, c_uint32 mr, c_uint32 fs⟩) ∧
    c_uint32 (-1) = 2 ^ 32 - 1 ∧
    (∀ v : Int, 0 ≤ v → c_uint32 v = v.toNat % 2 ^ 32) := by
  refine ⟨?_, fun _ _ _ _ _ => rfl, by decide, ?_⟩
  · intro new_result err_out d f ch r
    cases new_result <;> rfl
  · intro v hv
    unfold c_uint32
    omega

/-- Witness for C9: the explicit non-negative value 8192 is stored
unchanged. -/
theorem C9_buffer_attr_defaults_witness :
    (0 : Int) ≤ 8192 ∧ c_uint32 8192 = (8192 : Int).toNat % 2 ^ 32 :=
  ⟨by decide, C9_buffer_attr_defaults.2.2.2 8192 (by decide)⟩

/-- C1: after close, read, write, drain, flush and get_latency all fail
with the closed-stream error (message "Cannot perform operation on closed
stream") without touching state or the native layer, a further close is a
no-op; across a whole trace, pa_simple_free is issued exactly once when
the stream was opened and the trace closes it (no matter how many closes
follow), and never on a stream that was not successfully opened (the
state a failed construction leaves behind has the alive flag unset). -/
theorem C1_close_lifecycle (lib : NativeLib) (d f ch r : Nat) :
    (∀ n, read lib ⟨false, d, f, ch, r⟩ n =
        (.error .closedStream, ⟨false, d, f, ch, r⟩, [])) ∧
    (∀ data, write lib ⟨false, d, f, ch, r⟩ data =
        (.error .closedStream, ⟨false, d, f, ch, r⟩, [])) ∧
    drain lib ⟨false, d, f, ch, r⟩ =
        (.error .closedStream, ⟨false, d, f, ch, r⟩, []) ∧
    flush lib ⟨false, d, f, ch, r⟩ =
        (.error .closedStream, ⟨false, d, f, ch, r⟩, []) ∧
    get_latency lib ⟨false, d, f, ch, r⟩ =
        (.error .closedStream, ⟨false, d, f, ch, r⟩, []) ∧
    close ⟨false, d, f, ch, r⟩ = (⟨false, d, f, ch, r⟩, []) ∧
    PaErr.message .closedStream = "Cannot perform operation on closed stream" ∧
    (∀ ops, freeCount (runTrace lib ⟨true, d, f, ch, r⟩ (Op.close :: ops)).2 = 1) ∧
    (∀ ops, Op.close ∈ ops →
        freeCount (runTrace lib ⟨true, d, f, ch, r⟩ ops).2 = 1) ∧
    (∀ ops, freeCount (runTrace lib ⟨false, d, f, ch, r⟩ ops).2 = 0) ∧
    (∀ err_out mls tls pbs mrs fss,
        (init none err_out d f ch r mls tls pbs mrs fss).1.stream_alive = false) := by
  refine ⟨fun _ => rfl, fun _ => rfl, rfl, rfl, rfl, rfl, rfl, ?_, ?_, ?_,
          fun _ _ _ _ _ _ => rfl⟩
  · intro ops
    rw [runTrace_freeCount]
    simp
  · intro ops hmem
    rw [runTrace_freeCount]
    simp [hmem]
  · intro ops
    rw [runTrace_freeCount]
    simp

/-- Witness for C1 at a concrete trace: closing an open stream and then
closing again frees exactly once, and the same trace on a stream whose
construction failed frees nothing. -/
theorem C1_close_lifecycle_witness :
    (Op.close ∈ [Op.close, Op.close] ∧
      freeCount (runTrace testLib ⟨true, 2, 3, 1, 44100⟩ [Op.close, Op.close]).2 = 1) ∧
    freeCount (runTrace testLib ⟨false, 2, 3, 1, 44100⟩ [Op.close, Op.close]).2 = 0 :=
  ⟨⟨by decide,
    (C1_close_lifecycle testLib 2 3 1 44100).2.2.2.2.2.2.2.2.1
      [Op.close, Op.close] (by decide)⟩,
   (C1_close_lifecycle testLib 2 3 1 44100).2.2.2.2.2.2.2.2.2.1
      [Op.close, Op.close]⟩

/-- C2 as stated is false: on a closed stream the liveness check fires
before the direction check. At the concrete closed Record stream, write
fails with the closed-stream error, whose message differs from the
invalid-direction message the claim requires. -/
theorem C2_counterexample :
    (write testLib ⟨false, PA_STREAM_RECORD, PA_SAMPLE_S16LE, 1, 44100⟩ [0]).1 =
      .error .closedStream ∧
    PaErr.closedStream ≠ PaErr.notPlayback ∧
    PaErr.message .closedStream ≠ "Stream was not initialized for playback" := by
  exact ⟨rfl, by decide, by decide⟩

/-- C2 amended: on an Open stream, a Record stream rejects write and
drain with the playback invalid-direction error and a Playback stream
rejects read with the recording invalid-direction error (in each case
with unchanged state and no native call); on a Closed stream the same
operations fail too, but with the closed-stream error, because the
liveness check precedes the direction check. -/
theorem C2_direction_gating (lib : NativeLib) (f ch r : Nat) :
    (∀ data, write lib ⟨true, PA_STREAM_RECORD, f, ch, r⟩ data =
        (.error .notPlayback, ⟨true, PA_STREAM_RECORD, f, ch, r⟩, [])) ∧
    drain lib ⟨true, PA_STREAM_RECORD, f, ch, r⟩ =
        (.error .notPlayback, ⟨true, PA_STREAM_RECORD, f, ch, r⟩, []) ∧
    (∀ n, read lib ⟨true, PA_STREAM_PLAYBACK, f, ch, r⟩ n =
        (.error .notRecording, ⟨true, PA_STREAM_PLAYBACK, f, ch, r⟩, [])) ∧
    (∀ data, (write lib ⟨false, PA_STREAM_RECORD, f, ch, r⟩ data).1 =
        .error .closedStream) ∧
    (drain lib ⟨false, PA_STREAM_RECORD, f, ch, r⟩).1 = .error .closedStream ∧
    (∀ n, (read lib ⟨false, PA_STREAM_PLAYBACK, f, ch, r⟩ n).1 =
        .error .closedStream) ∧
    PaErr.message .notPlayback = "Stream was not initialized for playback" ∧
    PaErr.message .notRecording = "Stream was not initialized for recording" :=
  ⟨fun _ => rfl, rfl, fun _ => rfl, fun _ => rfl, rfl, fun _ => rfl, rfl, rfl⟩

/-- C3: whenever an operation fails with a misuse error (closed stream or
invalid direction), no native boundary call is issued and the state is
unchanged. -/
theorem C3_misuse_no_native_call (lib : NativeLib) (s : StreamState) (op : Op)
    (h : (step lib s op).1.isMisuseError = true) :
    (step lib s op).2.2 = [] ∧ (step lib s op).2.1 = s := by
  cases op with
  | close => simp [step, OpResult.isMisuseError, exceptMisuse] at h
  | read n =>
    exact ⟨read_misuse_calls lib s n
      (by simpa [step, OpResult.isMisuseError] using h), read_state lib s n⟩
  | write data =>
    exact ⟨write_misuse_calls lib s data
      (by simpa [step, OpResult.isMisuseError] using h), write_state lib s data⟩
  | drain =>
    exact ⟨drain_misuse_calls lib s
      (by simpa [step, OpResult.isMisuseError] using h), drain_state lib s⟩
  | flush =>
    exact ⟨flush_misuse_calls lib s
      (by simpa [step, OpResult.isMisuseError] using h), flush_state lib s⟩
  | get_latency =>
    exact ⟨get_latency_misuse_calls lib s
      (by simpa [step, OpResult.isMisuseError] using h), get_latency_state lib s⟩

/-- Witness for C3: a read attempted on a closed stream is a misuse error,
and indeed issues no native call and leaves the state unchanged. -/
theorem C3_misuse_no_native_call_witness :
    (step testLib ⟨false, 2, 3, 1, 44100⟩ (.read 5)).1.isMisuseError = true ∧
    ((step testLib ⟨false, 2, 3, 1, 44100⟩ (.read 5)).2.2 = [] ∧
      (step testLib ⟨false, 2, 3, 1, 44100⟩ (.read 5)).2.1 = ⟨false, 2, 3, 1, 44100⟩) :=
  ⟨by decide, C3_misuse_no_native_call testLib ⟨false, 2, 3, 1, 44100⟩ (.read 5) (by decide)⟩

/-- C4 is refuted by the code: on an Open stream whose native latency
query succeeds (error out-parameter 0), get_latency still raises, because
the guard compares the ctypes c_int object itself to 0 (always True). The
claimed iff fails in the direction "error 0 implies no raise". -/
theorem C4_get_latency_always_raises (lib : NativeLib) (d f ch r : Nat)
    (hlat : lib.latencyResult.2 = 0) :
    (get_latency lib ⟨true, d, f, ch, r⟩).1 = .error (.nativeLatency 0) ∧
    ∀ v : Nat, (get_latency lib ⟨true, d, f, ch, r⟩).1 ≠ .ok v := by
  constructor
  · simp [get_latency, c_int_ne_literal, hlat]
  · intro v
    simp [get_latency, c_int_ne_literal]

/-- Witness for C4: the test library reports latency 123 with error code
0, yet get_latency raises the latency error. -/
theorem C4_get_latency_always_raises_witness :
    testLib.latencyResult.2 = 0 ∧
    ((get_latency testLib ⟨true, 2, 3, 1, 44100⟩).1 = .error (.nativeLatency 0) ∧
      ∀ v : Nat, (get_latency testLib ⟨true, 2, 3, 1, 44100⟩).1 ≠ .ok v) :=
  ⟨rfl, C4_get_latency_always_raises testLib 2 3 1 44100 rfl⟩

/-- C5: a successful read returns a buffer of exactly the requested
number of bytes, holding the bytes the native layer wrote (truncated or
zero-padded to the fixed bytearray length). -/
theorem C5_read_exact_length (lib : NativeLib) (s : StreamState) (n : Nat)
    (bs : List Nat) (s2 : StreamState) (calls : List NativeCall)
    (h : read lib s n = (.ok bs, s2, calls)) : bs.length = n := by
  unfold read at h
  split at h
  · simp at h
  · split at h
    · simp at h
    · dsimp only at h
      split at h
      · simp at h
      · simp only [Prod.mk.injEq, Except.ok.injEq] at h
        rw [← h.1]
        simp

/-- Witness for C5: reading 4 bytes from the test library yields the
4-byte buffer it filled. -/
theorem C5_read_exact_length_witness :
    read testLib ⟨true, PA_STREAM_RECORD, PA_SAMPLE_S16LE, 1, 44100⟩ 4 =
      (.ok [7, 7, 7, 7], ⟨true, PA_STREAM_RECORD, PA_SAMPLE_S16LE, 1, 44100⟩,
        [.pa_simple_read 4]) ∧
    ([7, 7, 7, 7] : List Nat).length = 4 :=
  ⟨by decide,
   C5_read_exact_length testLib ⟨true, PA_STREAM_RECORD, PA_SAMPLE_S16LE, 1, 44100⟩
     4 [7, 7, 7, 7] ⟨true, PA_STREAM_RECORD, PA_SAMPLE_S16LE, 1, 44100⟩
     [.pa_simple_read 4] (by decide)⟩

/-- C10: the accessors direction, format, channels and rate return
exactly the constructor arguments, no sequence of operations (including
close) changes them, and they are plain attribute reads that do not
consult the alive flag, so they still return those values on a closed
stream. -/
theorem C10_accessors_frame (lib : NativeLib) (d f ch r : Nat) (ops : List Op) :
    (direction (init (some 1) 0 d f ch r (-1) (-1) (-1) (-1) (-1)).1 = d ∧
     format (init (some 1) 0 d f ch r (-1) (-1) (-1) (-1) (-1)).1 = f ∧
     channels (init (some 1) 0 d f ch r (-1) (-1) (-1) (-1) (-1)).1 = ch ∧
     rate (init (some 1) 0 d f ch r (-1) (-1) (-1) (-1) (-1)).1 = r) ∧
    (direction (runTrace lib ⟨true, d, f, ch, r⟩ ops).1 = d ∧
     format (runTrace lib ⟨true, d, f, ch, r⟩ ops).1 = f ∧
     channels (runTrace lib ⟨true, d, f, ch, r⟩ ops).1 = ch ∧
     rate (runTrace lib ⟨true, d, f, ch, r⟩ ops).1 = r) ∧
    (direction ⟨false, d, f, ch, r⟩ = d ∧ format ⟨false, d, f, ch, r⟩ = f ∧
     channels ⟨false, d, f, ch, r⟩ = ch ∧ rate ⟨false, d, f, ch, r⟩ = r) := by
  have hc := runTrace_config lib ops ⟨true, d, f, ch, r⟩
  exact ⟨⟨rfl, rfl, rfl, rfl⟩,
         ⟨hc.1, hc.2.1, hc.2.2.1, hc.2.2.2⟩,
         ⟨rfl, rfl, rfl, rfl⟩⟩

end PaSimpleLib
